import Mathlib

/-!
Shallow embedding of the SIEM security orchestrator
(src/backend-implementation/docker/siem/orchestrator/src/orchestrator.py).

The embedding models the event-matching and action-dispatch pipeline:
`event_matches_playbook` (lines 218-238), `execute_playbook` (lines 240-290),
the action capabilities `block_ip_address`, `disable_user_account`,
`send_security_alert`, `isolate_host`, `create_incident_ticket`
(lines 292-438), `store_incident` (lines 440-449), `load_playbooks`
(lines 129-145) and the poll loop `monitor_security_events` /
`process_security_event` (lines 147-216).

External effects (Elasticsearch writes, Slack posts, caught exceptions,
incident creation/storage) are made observable as a trace of `Effect`
values, so that ordering and failure-isolation claims can be stated.
Python exceptions thrown by collaborators are modelled by boolean flags in
`ExecEnv` (`esOk`, `slackOk`); every capability catches its own exceptions
internally, exactly as the `try/except` blocks in the source do.
-/

namespace Orchestrator

/-! ## String helpers modelling Python primitives -/

/-- Python's `needle in haystack` on strings: contiguous-substring test,
over explicit character lists. `[] ∈ anything` is true, as in Python. -/
def charsIn (pat : List Char) : List Char → Bool
  | [] => pat.isEmpty
  | c :: rest => pat.isPrefixOf (c :: rest) || charsIn pat rest

/-- Python's `trigger in s` for strings. -/
def strIn (pat s : String) : Bool := charsIn pat.data s.data

/-- Python's `str.lower()` (ASCII case folding suffices for this code base). -/
def lowerStr (s : String) : String := String.mk (s.data.map Char.toLower)

/-- Python's f-string interpolation of an `Optional[str]`: `None` prints as
the four characters `None`. -/
def pyStr : Option String → String
  | none => "None"
  | some s => s

/-- Python truthiness of an `Optional[str]`: `None` and the empty string are
falsy, as tested by the `if not ip_address:` guards in the capabilities. -/
def truthy : Option String → Bool
  | none => false
  | some s => !(s.isEmpty)

/-! ## Data model (Pydantic models, orchestrator.py lines 65-97) -/

/-- SecurityEvent (lines 65-75). The `timestamp` and `raw_data` fields are
never read by the matching or dispatch logic under verification and are
omitted. -/
structure SecurityEvent where
  event_type : String
  severity : String
  source : String
  source_ip : Option String
  user : Option String
  description : String
  tags : List String
deriving DecidableEq, Repr

/-- ActionSpec: one entry of a playbook's `actions` list. In the source an
action is a dict read with `action.get('type')` and `action.get('params', {})`;
params values are opaque to the dispatcher and modelled as strings. -/
structure ActionSpec where
  type : String
  params : List (String × String)
deriving DecidableEq, Repr

/-- PlaybookConfig (lines 86-92). -/
structure PlaybookConfig where
  name : String
  triggers : List String
  severity_threshold : String
  actions : List ActionSpec
  enabled : Bool
deriving DecidableEq, Repr

/-- IncidentResponse (lines 77-84). The `timestamp` field is omitted; the
creation instant is the `nowStr` argument threaded through
`execute_playbook`, visible in `incident_id`. -/
structure IncidentResponse where
  incident_id : String
  severity : String
  status : String
  actions_taken : List String
  resolved : Bool
deriving DecidableEq, Repr

/-! ## Matcher (event_matches_playbook, lines 218-238) -/

/-- The dict lookup `severity_levels.get(s, d)` against
`{"info": 1, "low": 2, "medium": 3, "high": 4, "critical": 5}` (line 224). -/
def severity_levels_get (s : String) (d : Nat) : Nat :=
  if s = "info" then 1
  else if s = "low" then 2
  else if s = "medium" then 3
  else if s = "high" then 4
  else if s = "critical" then 5
  else d

/-- The severity gate of lines 224-229: the event's severity is ranked with
default 0, the playbook's threshold with default 5, and the playbook is
eligible only when the event rank is not below the threshold rank. -/
def severityGate (e : SecurityEvent) (p : PlaybookConfig) : Bool :=
  !(severity_levels_get e.severity 0 < severity_levels_get p.severity_threshold 5)

/-- The trigger loop of lines 232-236: `trigger in event.event_type or
trigger in event.description.lower() or any(trigger in tag for tag in
event.tags)`. Only the description is lowercased; the trigger, the event
type and the tags are compared as written. -/
def triggerHit (e : SecurityEvent) (trigger : String) : Bool :=
  strIn trigger e.event_type
    || strIn trigger (lowerStr e.description)
    || e.tags.any (fun tag => strIn trigger tag)

/-- event_matches_playbook (lines 218-238). -/
def event_matches_playbook (e : SecurityEvent) (p : PlaybookConfig) : Bool :=
  if !p.enabled then false
  else if severityGate e p = false then false
  else p.triggers.any (fun trigger => triggerHit e trigger)

/-- Modelled from the spec: the trigger test as the specification words it,
for refinement comparison with `event_matches_playbook` — a playbook matches
iff some trigger is a case-insensitive substring of the event type, the
description, or some tag (spec §4.2 step 3). -/
def event_matches_playbook_specWorded (e : SecurityEvent) (p : PlaybookConfig) : Bool :=
  p.enabled && severityGate e p &&
    p.triggers.any (fun trigger =>
      strIn (lowerStr trigger) (lowerStr e.event_type)
        || strIn (lowerStr trigger) (lowerStr e.description)
        || e.tags.any (fun tag => strIn (lowerStr trigger) (lowerStr tag)))

/-! ## Observable effects of dispatch -/

/-- Observable effects produced while executing a playbook, in program
order: a capability being invoked, an Elasticsearch index write, a Slack
post, a caught-and-logged collaborator error, the construction of the
IncidentResponse record, and the store_incident call. -/
inductive Effect where
  | capCall : String → Effect
  | esWrite : String → Effect
  | slackPost : Effect
  | emailLogged : Effect
  | capError : String → String → Effect
  | incidentCreated : String → String → Effect
  | incidentStored : String → Effect
deriving DecidableEq, Repr

/-- Collaborator environment: whether the Elasticsearch client and the Slack
webhook succeed when called, and which alert channels are configured. -/
structure ExecEnv where
  esOk : Bool
  slackConfigured : Bool
  slackOk : Bool
  emailConfigured : Bool
deriving DecidableEq, Repr

/-! ## Action capabilities (lines 292-438). Each one catches its own
exceptions (`try/except` inside the method) and returns normally, so a
collaborator failure is visible only as a `capError` trace entry. -/

/-- block_ip_address (lines 292-315): early return on falsy ip, otherwise an
Elasticsearch write to `security-blocklist`; any exception is caught and
logged inside the method. -/
def block_ip_address (env : ExecEnv) (ip : Option String) : List Effect :=
  if truthy ip = false then []
  else if env.esOk then [Effect.esWrite "security-blocklist"]
  else [Effect.capError "block_ip" "es error"]

/-- disable_user_account (lines 317-338): same shape as block_ip_address,
writing to `security-actions`. -/
def disable_user_account (env : ExecEnv) (username : Option String) : List Effect :=
  if truthy username = false then []
  else if env.esOk then [Effect.esWrite "security-actions"]
  else [Effect.capError "disable_user" "es error"]

/-- send_slack_alert (lines 370-381): HTTP post; exceptions caught inside. -/
def send_slack_alert (env : ExecEnv) : List Effect :=
  if env.slackOk then [Effect.slackPost]
  else [Effect.capError "send_alert" "slack error"]

/-- send_security_alert (lines 340-368): posts to Slack and/or logs an email
depending on configuration; exceptions caught inside. -/
def send_security_alert (env : ExecEnv) : List Effect :=
  (if env.slackConfigured then send_slack_alert env else [])
    ++ (if env.emailConfigured then [Effect.emailLogged] else [])

/-- isolate_host (lines 392-413): early return on falsy ip, otherwise an
Elasticsearch write to `security-actions`. -/
def isolate_host (env : ExecEnv) (ip : Option String) : List Effect :=
  if truthy ip = false then []
  else if env.esOk then [Effect.esWrite "security-actions"]
  else [Effect.capError "isolate_host" "es error"]

/-- create_incident_ticket (lines 415-438): Elasticsearch write to
`security-tickets`, no truthiness guard. -/
def create_incident_ticket (env : ExecEnv) : List Effect :=
  if env.esOk then [Effect.esWrite "security-tickets"]
  else [Effect.capError "create_ticket" "es error"]

/-! ## The dispatcher (execute_playbook, lines 240-290) -/

/-- One iteration of the action loop (lines 249-271): the if/elif chain on
`action_type`. Returns the effects of the capability call and the strings
appended to `actions_taken`. An unrecognized type falls through every
branch: no effect, no entry, no log — exactly as in the source. -/
def runAction (env : ExecEnv) (e : SecurityEvent) (a : ActionSpec) :
    List Effect × List String :=
  if a.type = "block_ip" then
    (Effect.capCall "block_ip" :: block_ip_address env e.source_ip,
     ["Blocked IP: " ++ pyStr e.source_ip])
  else if a.type = "disable_user" then
    (Effect.capCall "disable_user" :: disable_user_account env e.user,
     ["Disabled user: " ++ pyStr e.user])
  else if a.type = "send_alert" then
    (Effect.capCall "send_alert" :: send_security_alert env,
     ["Sent security alert"])
  else if a.type = "isolate_host" then
    (Effect.capCall "isolate_host" :: isolate_host env e.source_ip,
     ["Isolated host: " ++ pyStr e.source_ip])
  else if a.type = "create_ticket" then
    (Effect.capCall "create_ticket" :: create_incident_ticket env,
     ["Created incident ticket"])
  else ([], [])

/-- The whole `for action in playbook.actions` loop, accumulating effects
and `actions_taken` in declared order. -/
def runActions (env : ExecEnv) (e : SecurityEvent) : List ActionSpec →
    List Effect × List String
  | [] => ([], [])
  | a :: rest =>
    ((runAction env e a).1 ++ (runActions env e rest).1,
     (runAction env e a).2 ++ (runActions env e rest).2)

/-- The success summary the dispatcher appends for a recognized action type,
`none` for an unrecognized one (read off the if/elif chain of lines
249-271). -/
def actionSummary (e : SecurityEvent) (a : ActionSpec) : Option String :=
  if a.type = "block_ip" then some ("Blocked IP: " ++ pyStr e.source_ip)
  else if a.type = "disable_user" then some ("Disabled user: " ++ pyStr e.user)
  else if a.type = "send_alert" then some "Sent security alert"
  else if a.type = "isolate_host" then some ("Isolated host: " ++ pyStr e.source_ip)
  else if a.type = "create_ticket" then some ("Created incident ticket")
  else none

/-- Whether a type string is one of the five recognized capability tags. -/
def isKnownType (t : String) : Bool :=
  t = "block_ip" || t = "disable_user" || t = "send_alert"
    || t = "isolate_host" || t = "create_ticket"

/-- incident_id (line 243):
`f"incident-{datetime.now().strftime('%Y%m%d-%H%M%S')}-{event.event_type}"`.
`nowStr` stands for the second-granularity formatted clock reading. -/
def incident_id (nowStr : String) (event_type : String) : String :=
  "incident-" ++ nowStr ++ "-" ++ event_type

/-- store_incident (lines 440-449): Elasticsearch write to
`security-incidents`; an exception is caught and logged inside. -/
def store_incident (esOk : Bool) (iid : String) : List Effect :=
  if esOk then [Effect.incidentStored iid]
  else [Effect.capError "store_incident" "es error"]

/-- Result of `execute_playbook`: the effect trace in program order and the
IncidentResponse value constructed at lines 274-280. -/
structure ExecResult where
  trace : List Effect
  incident : IncidentResponse
deriving DecidableEq, Repr

/-- execute_playbook (lines 240-290): compute the incident id, run every
action in declared order, then construct the IncidentResponse (status
`active`) and store it. The record is built only after the action loop has
finished. -/
def execute_playbook (env : ExecEnv) (nowStr : String)
    (e : SecurityEvent) (p : PlaybookConfig) : ExecResult :=
  { trace :=
      (runActions env e p.actions).1
        ++ Effect.incidentCreated (incident_id nowStr e.event_type) "active"
          :: store_incident env.esOk (incident_id nowStr e.event_type)
    incident :=
      { incident_id := incident_id nowStr e.event_type
        severity := e.severity
        status := "active"
        actions_taken := (runActions env e p.actions).2
        resolved := false } }

/-- Python dict assignment `self.incidents[incident_id] = incident`
(line 282) on an association list preserving insertion order: an existing
key is overwritten in place, a new key is appended. -/
def dictInsert (m : List (String × IncidentResponse)) (k : String)
    (v : IncidentResponse) : List (String × IncidentResponse) :=
  if m.any (fun kv => kv.1 = k) then
    m.map (fun kv => if kv.1 = k then (k, v) else kv)
  else m ++ [(k, v)]

/-! ## Monitor loop (lines 147-216) -/

/-- The playbook loop of process_security_event (lines 210-213): the event
is dispatched once against every matching playbook, in registry order. -/
def process_dispatches (pbs : List PlaybookConfig) (e : SecurityEvent) :
    List (SecurityEvent × PlaybookConfig) :=
  (pbs.filter (fun p => event_matches_playbook e p)).map (fun p => (e, p))

/-- The hit loop of monitor_security_events across successive polls (lines
185-186): every hit of every poll is processed; no per-window seen-set or
recent-ids cache is threaded between polls. -/
def monitorDispatches (pbs : List PlaybookConfig)
    (polls : List (List SecurityEvent)) : List (SecurityEvent × PlaybookConfig) :=
  polls.flatMap (fun hits => hits.flatMap (fun e => process_dispatches pbs e))

/-! ## Playbook loading (load_playbooks, lines 129-145) -/

/-- load_playbooks: the directory scan yields a sequence of files, each
either parsing to a playbook (`some`) or malformed (`none`, i.e. yaml or
validation raises). The single try/except wraps the whole loop, so the
first malformed file aborts the loop; files appended before it remain, the
exception is caught and logged, and the method returns normally. -/
def load_playbooks : List (Option PlaybookConfig) → List PlaybookConfig
  | [] => []
  | some p :: rest => p :: load_playbooks rest
  | none :: _ => []

/-! ## Concrete fixtures for scenario and counterexample theorems -/

/-- Elasticsearch reachable, no alert channel configured. -/
def envOk : ExecEnv := ⟨true, false, false, false⟩

/-- Elasticsearch unreachable (its calls raise, caught inside the
capabilities), no alert channel configured. -/
def envEsDown : ExecEnv := ⟨false, false, false, false⟩

/-- The event of end-to-end scenario 1: critical sql_injection from
10.0.0.5. -/
def evSql : SecurityEvent :=
  ⟨"sql_injection", "critical", "waf", some "10.0.0.5", none,
   "Detected SQL Injection attempt", []⟩

/-- The playbook of end-to-end scenario 1: triggers on sql_injection at
threshold high, blocks the source ip then sends an alert. -/
def pbSql : PlaybookConfig :=
  ⟨"sql-response", ["sql_injection"], "high",
   [⟨"block_ip", []⟩, ⟨"send_alert", []⟩], true⟩

/-- An informational ping-scan event: severity "info", ranked 1. -/
def evInfoPing : SecurityEvent := ⟨"ping_scan", "info", "ids", none, none, "", []⟩

/-- A playbook whose severity_threshold "urgent" is not a recognized
severity string; the dict lookup for it falls back to the default 5. -/
def pbUnknownThreshold : PlaybookConfig := ⟨"weird", ["ping"], "urgent", [], true⟩

/-- A playbook whose only trigger "Sql" differs from the event data solely
in letter case. -/
def pbCasedTrigger : PlaybookConfig := ⟨"cased", ["Sql"], "info", [], true⟩

/-- A playbook with a single send_alert action. -/
def pbAlertOnly : PlaybookConfig :=
  ⟨"alert-only", ["sql"], "high", [⟨"send_alert", []⟩], true⟩

/-- A playbook whose first action type "quarantine_dns" is not one of the
five recognized capability tags. -/
def pbUnknownAction : PlaybookConfig :=
  ⟨"dns", ["sql"], "high", [⟨"quarantine_dns", []⟩, ⟨"send_alert", []⟩], true⟩

/-- A second playbook matching the same sql_injection event. -/
def pbTicket : PlaybookConfig :=
  ⟨"ticket", ["sql_injection"], "high", [⟨"create_ticket", []⟩], true⟩

/-- A well-formed playbook file appearing before a malformed one. -/
def pbGoodOne : PlaybookConfig := ⟨"pb-one", ["a"], "critical", [], true⟩

/-- A well-formed playbook file appearing after a malformed one. -/
def pbGoodTwo : PlaybookConfig := ⟨"pb-two", ["b"], "critical", [], true⟩

/-- A recognized severity string, i.e. a key of the severity_levels dict. -/
def knownSeverity (s : String) : Bool :=
  s = "info" || s = "low" || s = "medium" || s = "high" || s = "critical"

/-- A critical sql_injection event whose source_ip is absent. -/
def evNoIp : SecurityEvent :=
  ⟨"sql_injection", "critical", "waf", none, none, "", []⟩

/-- A playbook with a single block_ip action. -/
def pbBlockOnly : PlaybookConfig :=
  ⟨"blk", ["sql"], "high", [⟨"block_ip", []⟩], true⟩

/-! ## Helper lemmas about the action loop -/

/-- The strings one loop iteration appends to actions_taken are exactly the
success summary of the action, when its type is recognized. -/
theorem runAction_taken (env : ExecEnv) (e : SecurityEvent) (a : ActionSpec) :
    (runAction env e a).2 = (actionSummary e a).toList := by
  unfold runAction actionSummary
  split_ifs <;> rfl

/-- No capability ever emits an incidentCreated effect. -/
theorem runAction_no_created (env : ExecEnv) (e : SecurityEvent) (a : ActionSpec)
    (i s : String) : Effect.incidentCreated i s ∉ (runAction env e a).1 := by
  unfold runAction block_ip_address disable_user_account send_security_alert
    send_slack_alert isolate_host create_incident_ticket
  split_ifs <;> simp

/-- actions_taken accumulated by the loop is the in-order list of success
summaries of the recognized actions, independent of the collaborator
environment. -/
theorem runActions_taken (env : ExecEnv) (e : SecurityEvent) :
    ∀ acts : List ActionSpec,
      (runActions env e acts).2 = acts.filterMap (actionSummary e)
  | [] => rfl
  | a :: rest => by
    have ih := runActions_taken env e rest
    cases h : actionSummary e a <;>
      simp [runActions, runAction_taken, h, ih, List.filterMap_cons]

/-- The action loop never emits an incidentCreated effect. -/
theorem runActions_no_created (env : ExecEnv) (e : SecurityEvent) (i s : String) :
    ∀ acts : List ActionSpec,
      Effect.incidentCreated i s ∉ (runActions env e acts).1
  | [] => by simp [runActions]
  | a :: rest => by
    have ih := runActions_no_created env e i s rest
    have ha := runAction_no_created env e a i s
    simp [runActions, List.mem_append]
    exact ⟨ha, ih⟩

/-- A recognized action always gets its capability invoked. -/
theorem runAction_capCall_mem (env : ExecEnv) (e : SecurityEvent) (a : ActionSpec)
    (h : isKnownType a.type = true) :
    Effect.capCall a.type ∈ (runAction env e a).1 := by
  unfold isKnownType at h
  unfold runAction
  split_ifs with h1 h2 h3 h4 h5
  · simp [h1]
  · simp [h2]
  · simp [h3]
  · simp [h4]
  · simp [h5]
  · simp [h1, h2, h3, h4, h5] at h

/-- Every recognized action anywhere in the list gets its capability
invoked, regardless of what other actions do. -/
theorem runActions_capCall_mem (env : ExecEnv) (e : SecurityEvent) (a : ActionSpec)
    (h : isKnownType a.type = true) :
    ∀ acts : List ActionSpec, a ∈ acts →
      Effect.capCall a.type ∈ (runActions env e acts).1
  | b :: rest, hmem => by
    rcases List.mem_cons.mp hmem with heq | htail
    · subst heq
      simp [runActions, List.mem_append]
      exact Or.inl (runAction_capCall_mem env e a h)
    · simp [runActions, List.mem_append]
      exact Or.inr (runActions_capCall_mem env e a h rest htail)

/-- An unrecognized action type falls through the whole if/elif chain:
no effect, no actions_taken entry. -/
theorem runAction_unknown (env : ExecEnv) (e : SecurityEvent) (a : ActionSpec)
    (h : isKnownType a.type = false) : runAction env e a = ([], []) := by
  unfold isKnownType at h
  simp only [Bool.or_eq_false_iff, decide_eq_false_iff_not] at h
  unfold runAction
  simp [h.1.1.1.1, h.1.1.1.2, h.1.1.2, h.1.2, h.2]

/-- A recognized action's summary string ends up in the accumulated
actions_taken of any list containing it. -/
theorem runActions_summary_mem (env : ExecEnv) (e : SecurityEvent)
    (a : ActionSpec) (s : String) (hs : actionSummary e a = some s) :
    ∀ acts : List ActionSpec, a ∈ acts → s ∈ (runActions env e acts).2
  | b :: rest, hmem => by
    rcases List.mem_cons.mp hmem with heq | htail
    · subst heq
      simp [runActions, runAction_taken, hs]
    · simp [runActions, List.mem_append]
      exact Or.inr (runActions_summary_mem env e a s hs rest htail)

/-! ## Claim theorems -/

/-- C8: the critical sql_injection event from 10.0.0.5 matches the enabled
playbook with triggers ["sql_injection"] and threshold "high", and
executing that playbook yields an incident with actions_taken
["Blocked IP: 10.0.0.5", "Sent security alert"] and status "active". -/
theorem c8_scenario_one :
    event_matches_playbook evSql pbSql = true
    ∧ (execute_playbook envOk "20250814-120000" evSql pbSql).incident.actions_taken
        = ["Blocked IP: 10.0.0.5", "Sent security alert"]
    ∧ (execute_playbook envOk "20250814-120000" evSql pbSql).incident.status
        = "active" := by
  decide

/-- C1 counterexample: with Elasticsearch unreachable the block_ip
capability call fails (a caught error appears in the trace), yet
actions_taken records the plain success summary "Blocked IP: 10.0.0.5";
no entry of actions_taken contains the word "failed", so no
"<action> failed: <reason>" entry is ever produced. -/
theorem c1_counterexample :
    Effect.capError "block_ip" "es error"
        ∈ (execute_playbook envEsDown "20250814-120000" evSql pbSql).trace
    ∧ (execute_playbook envEsDown "20250814-120000" evSql pbSql).incident.actions_taken
        = ["Blocked IP: 10.0.0.5", "Sent security alert"]
    ∧ (∀ s ∈ (execute_playbook envEsDown "20250814-120000" evSql pbSql).incident.actions_taken,
        strIn "failed" s = false) := by
  decide

/-- C2 counterexample: the playbook with unrecognized severity_threshold
"urgent" does NOT pass the threshold check against an "info" event — the
unknown threshold is ranked 5 (the default of the dict lookup), not 0 — and
the playbook fails to match even though its trigger "ping" occurs in the
event type. -/
theorem c2_counterexample :
    severityGate evInfoPing pbUnknownThreshold = false
    ∧ event_matches_playbook evInfoPing pbUnknownThreshold = false := by
  decide

/-- C3 counterexample: under the spec's case-insensitive reading the
trigger "Sql" matches the critical sql_injection event, but
event_matches_playbook returns false: the trigger is never lowercased, so
matching is case-sensitive on the trigger side. -/
theorem c3_counterexample :
    event_matches_playbook_specWorded evSql pbCasedTrigger = true
    ∧ event_matches_playbook evSql pbCasedTrigger = false := by
  decide

/-- C4 counterexample: executing a one-action playbook, the very first
trace entry is the capability invocation, and the incidentCreated entry
only comes after it — an action capability is invoked before the Incident
record exists. -/
theorem c4_counterexample :
    (execute_playbook envOk "20250814-120000" evSql pbAlertOnly).trace
      = [Effect.capCall "send_alert",
         Effect.incidentCreated "incident-20250814-120000-sql_injection" "active",
         Effect.incidentStored "incident-20250814-120000-sql_injection"]
    ∧ (execute_playbook envOk "20250814-120000" evSql pbAlertOnly).trace.head?
        = some (Effect.capCall "send_alert") := by
  decide

/-- C5 counterexample: a playbook whose first action has the unrecognized
type "quarantine_dns" yields actions_taken = ["Sent security alert"]: the
unknown action leaves no "action skipped: unknown type" entry, no trace
entry at all (nothing is logged), while the following action still runs. -/
theorem c5_counterexample :
    (execute_playbook envOk "20250814-120000" evSql pbUnknownAction).incident.actions_taken
      = ["Sent security alert"]
    ∧ "action skipped: unknown type"
        ∉ (execute_playbook envOk "20250814-120000" evSql pbUnknownAction).incident.actions_taken
    ∧ (execute_playbook envOk "20250814-120000" evSql pbUnknownAction).trace
      = [Effect.capCall "send_alert",
         Effect.incidentCreated "incident-20250814-120000-sql_injection" "active",
         Effect.incidentStored "incident-20250814-120000-sql_injection"] := by
  decide

/-- C6: with no recent-ids cache in the monitor, the same event returned by
two successive overlapping polls is dispatched twice against the same
matching playbook, and executions in different seconds produce distinct
incident ids — two incidents for one (event, playbook) pair. -/
theorem c6_no_dedup_two_incidents :
    (monitorDispatches [pbSql] [[evSql], [evSql]]).count (evSql, pbSql) = 2
    ∧ (execute_playbook envOk "20250814-120000" evSql pbSql).incident.incident_id
        ≠ (execute_playbook envOk "20250814-120010" evSql pbSql).incident.incident_id := by
  decide

/-- C7 counterexample: two distinct playbooks dispatched for the same event
in the same second produce identical incident ids, and storing both in the
incidents dict leaves a single entry — the second dispatch overwrites the
first incident's record. -/
theorem c7_counterexample :
    pbSql ≠ pbTicket
    ∧ (execute_playbook envOk "20250814-120000" evSql pbSql).incident.incident_id
        = (execute_playbook envOk "20250814-120000" evSql pbTicket).incident.incident_id
    ∧ dictInsert (dictInsert [] (incident_id "20250814-120000" "sql_injection")
          (execute_playbook envOk "20250814-120000" evSql pbSql).incident)
        (incident_id "20250814-120000" "sql_injection")
        (execute_playbook envOk "20250814-120000" evSql pbTicket).incident
      = [(incident_id "20250814-120000" "sql_injection",
          (execute_playbook envOk "20250814-120000" evSql pbTicket).incident)] := by
  decide

/-- C9 counterexample: loading the file sequence [good, malformed, good]
yields only the first playbook — the well-formed file after the malformed
one is not loaded, because the single try/except wraps the whole loop. -/
theorem c9_counterexample :
    load_playbooks [some pbGoodOne, none, some pbGoodTwo] = [pbGoodOne]
    ∧ pbGoodTwo ∉ load_playbooks [some pbGoodOne, none, some pbGoodTwo] := by
  decide

/-- C1 (amended): a failing capability call is caught inside the capability
and never aborts the playbook — actions_taken is always the in-order list
of success summaries of the recognized actions, for every collaborator
environment (so a failure changes nothing in actions_taken and no
"<action> failed" entry exists), and every recognized action's capability
is invoked no matter what happened before it. -/
theorem c1_failure_isolated_success_entries (env : ExecEnv) (nowStr : String)
    (e : SecurityEvent) (p : PlaybookConfig) :
    (execute_playbook env nowStr e p).incident.actions_taken
        = p.actions.filterMap (actionSummary e)
    ∧ ∀ a ∈ p.actions, isKnownType a.type = true →
        Effect.capCall a.type ∈ (execute_playbook env nowStr e p).trace := by
  constructor
  · exact runActions_taken env e p.actions
  · intro a ha hk
    have hmem := runActions_capCall_mem env e a hk p.actions ha
    simp only [execute_playbook, List.mem_append, List.mem_cons]
    exact Or.inl hmem

/-- Witness for C1: applying the theorem with Elasticsearch down, the
incident still records both success summaries and the send_alert
capability is still invoked after the failing block_ip. -/
theorem c1_failure_isolated_witness :
    (execute_playbook envEsDown "20250814-120000" evSql pbSql).incident.actions_taken
        = ["Blocked IP: 10.0.0.5", "Sent security alert"]
    ∧ Effect.capCall "send_alert"
        ∈ (execute_playbook envEsDown "20250814-120000" evSql pbSql).trace := by
  refine ⟨((c1_failure_isolated_success_entries envEsDown "20250814-120000" evSql pbSql).1).trans
    (by decide), ?_⟩
  exact (c1_failure_isolated_success_entries envEsDown "20250814-120000" evSql pbSql).2
    ⟨"send_alert", []⟩ (by decide) (by decide)

/-- C2 (amended): an unrecognized severity_threshold is ranked 5 (the
highest), not 0, so a playbook carrying one passes the threshold check iff
the event severity is "critical". -/
theorem c2_unknown_threshold_gate (e : SecurityEvent) (p : PlaybookConfig)
    (h : knownSeverity p.severity_threshold = false) :
    severityGate e p = true ↔ e.severity = "critical" := by
  unfold knownSeverity at h
  simp only [Bool.or_eq_false_iff, decide_eq_false_iff_not] at h
  have h5eq : severity_levels_get p.severity_threshold 5 = 5 := by
    unfold severity_levels_get
    simp [h.1.1.1.1, h.1.1.1.2, h.1.1.2, h.1.2, h.2]
  unfold severityGate
  rw [h5eq]
  unfold severity_levels_get
  split_ifs with h1 h2 h3 h4 h5 <;> simp_all

/-- Witness for C2: the unknown threshold "urgent" does let a critical
event through the gate. -/
theorem c2_unknown_threshold_witness :
    severityGate evSql pbUnknownThreshold = true :=
  (c2_unknown_threshold_gate evSql pbUnknownThreshold (by decide)).mpr rfl

/-- C3 (amended): for an enabled playbook passing the severity gate, the
trigger test holds iff some trigger is a case-sensitive substring of the
event type, or of the lowercased description, or of some tag as written —
the trigger itself, the event type and the tags are never case-folded. -/
theorem c3_trigger_test_characterization (e : SecurityEvent) (p : PlaybookConfig)
    (hen : p.enabled = true) (hsev : severityGate e p = true) :
    event_matches_playbook e p = true
      ↔ ∃ t ∈ p.triggers, strIn t e.event_type = true
          ∨ strIn t (lowerStr e.description) = true
          ∨ ∃ tag ∈ e.tags, strIn t tag = true := by
  unfold event_matches_playbook triggerHit
  simp [hen, hsev, List.any_eq_true, or_assoc]

/-- Witness for C3: the scenario event matches its playbook through the
case-sensitive substring test on the event type. -/
theorem c3_trigger_test_witness :
    event_matches_playbook evSql pbSql = true :=
  (c3_trigger_test_characterization evSql pbSql (by decide) (by decide)).mpr
    ⟨"sql_injection", by decide, Or.inl (by decide)⟩

/-- C4 (amended): every execution trace is the action effects followed by
the incidentCreated (status "active") and store effects, and no action
effect is an incident creation — the Incident record comes into existence
only after all actions of the playbook have run. -/
theorem c4_incident_created_after_actions (env : ExecEnv) (nowStr : String)
    (e : SecurityEvent) (p : PlaybookConfig) :
    ∃ pre, (execute_playbook env nowStr e p).trace
        = pre ++ Effect.incidentCreated (incident_id nowStr e.event_type) "active"
            :: store_incident env.esOk (incident_id nowStr e.event_type)
      ∧ ∀ i s, Effect.incidentCreated i s ∉ pre :=
  ⟨(runActions env e p.actions).1, rfl,
   fun i s => runActions_no_created env e i s p.actions⟩

/-- C5 (amended): an action with an unrecognized type is skipped silently —
no log, no actions_taken entry, no trace effect — and the remaining actions
run exactly as if it were not there. -/
theorem c5_unknown_type_silently_skipped (env : ExecEnv) (e : SecurityEvent)
    (a : ActionSpec) (h : isKnownType a.type = false) (rest : List ActionSpec) :
    runActions env e (a :: rest) = runActions env e rest := by
  simp [runActions, runAction_unknown env e a h]

/-- Witness for C5: dropping the unknown quarantine_dns action leaves the
loop result unchanged. -/
theorem c5_unknown_type_witness :
    runActions envOk evSql (⟨"quarantine_dns", []⟩ :: [⟨"send_alert", []⟩])
      = runActions envOk evSql [⟨"send_alert", []⟩] :=
  c5_unknown_type_silently_skipped envOk evSql ⟨"quarantine_dns", []⟩ (by decide)
    [⟨"send_alert", []⟩]

/-- C7 (amended): the incident id depends only on the creation second and
the event type — the playbook plays no part — and assigning two incidents
under the same id into the incidents dict leaves a single entry holding the
later incident (the second dispatch overwrites the first). -/
theorem c7_id_depends_only_on_second_and_type (env : ExecEnv) (nowStr : String)
    (e : SecurityEvent) (p q : PlaybookConfig) (v w : IncidentResponse) :
    (execute_playbook env nowStr e p).incident.incident_id
        = (execute_playbook env nowStr e q).incident.incident_id
    ∧ dictInsert (dictInsert [] (incident_id nowStr e.event_type) v)
        (incident_id nowStr e.event_type) w
      = [(incident_id nowStr e.event_type, w)] := by
  refine ⟨rfl, ?_⟩
  simp [dictInsert]

/-- C9 (amended): loading a file sequence whose first malformed file sits
between well-formed ones returns exactly the playbooks before the malformed
file: earlier files are kept, the malformed file and everything after it
are dropped, and the loader returns normally (the exception is caught), so
the process still starts. -/
theorem c9_malformed_file_aborts_rest (pre : List PlaybookConfig)
    (post : List (Option PlaybookConfig)) :
    load_playbooks (pre.map some ++ none :: post) = pre := by
  induction pre with
  | nil => rfl
  | cons p ps ih => simp [load_playbooks, ih]

/-- C10: when the triggering event's source_ip is absent, block_ip_address
returns without any effect (no block is performed), yet the dispatcher
still appends "Blocked IP: None" to the incident's actions_taken; the
disable_user and isolate_host capabilities likewise no-op on a missing
argument. -/
theorem c10_phantom_block_entry (env : ExecEnv) (nowStr : String)
    (e : SecurityEvent) (p : PlaybookConfig) (a : ActionSpec)
    (hip : e.source_ip = none) (ha : a ∈ p.actions) (ht : a.type = "block_ip") :
    block_ip_address env e.source_ip = []
    ∧ "Blocked IP: None" ∈ (execute_playbook env nowStr e p).incident.actions_taken
    ∧ disable_user_account env none = []
    ∧ isolate_host env none = [] := by
  refine ⟨by rw [hip]; rfl, ?_, rfl, rfl⟩
  have hs : actionSummary e a = some "Blocked IP: None" := by
    simp [actionSummary, ht, hip, pyStr]
  exact runActions_summary_mem env e a _ hs p.actions ha

/-- Witness for C10: the one-action block_ip playbook against the
ip-less critical event records the phantom entry. -/
theorem c10_phantom_block_witness :
    block_ip_address envOk none = []
    ∧ "Blocked IP: None"
        ∈ (execute_playbook envOk "20250814-120000" evNoIp pbBlockOnly).incident.actions_taken
    ∧ disable_user_account envOk none = []
    ∧ isolate_host envOk none = [] :=
  c10_phantom_block_entry envOk "20250814-120000" evNoIp pbBlockOnly
    ⟨"block_ip", []⟩ rfl (by decide) rfl

end Orchestrator
